import Mathlib

/-
  Verification development for the document resolution and normalization
  pipeline of reffy (src/util.js).

  The JavaScript source is shallowly embedded: pure string manipulation is
  translated to executable Lean functions over String/List Char; the
  external collaborators (HTTP fetch, the JSDOM HTML parser, the Node URL
  resolver, the JS RegExp engine) are parameters of an environment record,
  since they are not code of this repository; promise results are modelled
  with Except.  All definitions are structural recursions so that concrete
  runs reduce inside the kernel.
-/

/-! ## JavaScript string primitives

Structural models of the JS string operations used by src/util.js.
They operate on the underlying character lists so that every concrete
evaluation reduces definitionally. -/

/-- Contiguous-sublist test on character lists (used to model JS substring
search; the empty pattern occurs in every list, as in JS). -/
def charsContain (pat : List Char) : List Char → Bool
  | [] => pat.isEmpty
  | c :: cs => pat.isPrefixOf (c :: cs) || charsContain pat cs

/-- JS `s.includes(sub)` (substring test). -/
def jsIncludes (s sub : String) : Bool :=
  charsContain sub.data s.data

/-- JS `s.startsWith(pre)`. -/
def jsStartsWith (s pre : String) : Bool :=
  pre.data.isPrefixOf s.data

/-- JS `s.endsWith(suffix)`. -/
def jsEndsWith (s suffix : String) : Bool :=
  suffix.data.isSuffixOf s.data

/-- JS `s.toLowerCase()`, restricted to ASCII case folding (the only case
folding exercised by the source, whose patterns are all ASCII). -/
def jsToLower (s : String) : String :=
  String.mk (s.data.map Char.toLower)

/-- Character class trimmed by JS `String.prototype.trim` (whitespace and
line terminators; the common members are modelled). -/
def isJsSpace (c : Char) : Bool :=
  c.isWhitespace || c == '\u000B' || c == '\u000C' || c == '\u00A0' ||
  c == '\uFEFF' || c == '\u2028' || c == '\u2029'

/-- JS `s.trim()`. -/
def jsTrim (s : String) : String :=
  String.mk (((s.data.dropWhile isJsSpace).reverse.dropWhile isJsSpace).reverse)

/-- Splitting helper: accumulator-based splitting of a character list at a
separator character. -/
def splitCharAux (sep : Char) : List Char → List Char → List (List Char)
  | [], acc => [acc.reverse]
  | c :: cs, acc =>
    if c == sep then acc.reverse :: splitCharAux sep cs []
    else splitCharAux sep cs (c :: acc)

/-- JS `s.split(sep)` for a one-character separator (the source only splits
on a semicolon).  Like in JS, the empty string splits to a singleton list
holding the empty string. -/
def jsSplitChar (sep : Char) (s : String) : List String :=
  (splitCharAux sep s.data []).map String.mk

/-- JS truthiness of `opt || default` for string-valued properties: an
absent property and the empty string both fall back to the default. -/
def jsOr : Option String → String → String
  | some s, d => if s = "" then d else s
  | none, d => d

/-- JS truthiness of an optional string value (`undefined` and the empty
string are falsy). -/
def jsTruthyStr : Option String → Bool
  | some s => decide (s ≠ "")
  | none => false

/-! ## Data model of the resolution pipeline -/

/-- Outcome of the external fetch collaborator: the final response URL
(after HTTP redirects) and the body text (util.js lines 368-371). -/
structure FetchResult where
  responseUrl : String
  html : String
  deriving DecidableEq, Repr

/-- The parts of a rendered JSDOM document that the pipeline inspects:
its base URI, its text content, the content attribute of the first
`meta[http-equiv=refresh]` element if one exists (the source collapses a
missing attribute to the empty string, line 315), and the
(text, href-attribute) pairs of the `body .head dl a[href]` links in
document order (line 324). -/
structure Doc where
  baseURI : String
  textContent : String
  metaRefreshContent : Option String
  headLinks : List (String × String)
  deriving DecidableEq, Repr

/-- A spec request object: `html`, `url` and `responseUrl` properties, each
possibly absent (util.js lines 180-183). -/
structure SpecRequest where
  html : Option String
  url : Option String
  responseUrl : Option String
  deriving DecidableEq, Repr

/-- Rejection values of the pipeline promises.  `infiniteLoop` is the
`new Error` with message `Infinite loop detected` thrown at util.js
line 365. -/
inductive LoadError
  | infiniteLoop
  deriving DecidableEq, Repr

/-- External collaborators of the pipeline, abstracted: the HTTP fetch
layer, the JSDOM renderer (markup and document URL to rendered document)
and Node's `URL.resolve`.  They are not code of this repository. -/
structure Env where
  fetch : Option String → FetchResult
  render : String → String → Doc
  resolve : String → String → String

/-! ## loadSpecificationFromHtml and loadSpecificationFromUrl
(util.js lines 180-345 and 361-373) -/

/-- Byte-order-mark stripping of util.js lines 188-190: if the first
character is U+FEFF it is dropped, once. -/
def stripBOM (html : String) : String :=
  match html.data with
  | c :: rest => if c = '\uFEFF' then String.mk rest else html
  | [] => html

/-- `let url = spec.url || "about:blank"` (util.js line 181). -/
def effectiveUrl (spec : SpecRequest) : String :=
  jsOr spec.url "about:blank"

/-- `let responseUrl = spec.responseUrl || url` (util.js line 182). -/
def effectiveResponseUrl (spec : SpecRequest) : String :=
  jsOr spec.responseUrl (effectiveUrl spec)

/-- The document produced by the renderer session for a spec request:
`spec.html || ""` with a leading BOM stripped, parsed at the response URL
(util.js lines 183-192). -/
def renderedDoc (env : Env) (spec : SpecRequest) : Doc :=
  env.render (stripBOM (jsOr spec.html "")) (effectiveResponseUrl spec)

/-- Redirect target of a rendered document (util.js lines 313-317): the
second semicolon-delimited field of the content attribute of the first
`meta[http-equiv=refresh]` element, if that field exists and is non-empty
(JS truthiness), trimmed and resolved against the document base URI. -/
def metaRefreshTarget (env : Env) (doc : Doc) : Option String :=
  match doc.metaRefreshContent with
  | none => none
  | some content =>
    match (jsSplitChar ';' content)[1]? with
    | none => none
    | some rawField =>
      if rawField = "" then none
      else some (env.resolve doc.baseURI (jsTrim rawField))

/-- Link-text heuristic of util.js lines 327-331: the lowercased visible
text contains one of the four single-page phrases. -/
def isSinglePageText (text : String) : Bool :=
  let t := jsToLower text
  jsIncludes t "single page" || jsIncludes t "single file" ||
  jsIncludes t "single-page" || jsIncludes t "one-page"

/-- Single-page-link step of util.js lines 324-343, parameterized by the
recursive re-entry `recur` (the source calls
`loadSpecificationFromUrl(singlePage, counter + 1)` there).  The first
link of `body .head dl a[href]` whose text matches the heuristic decides:
if its href resolved against the base URI equals the requested URL or the
response URL the current document is returned as is, otherwise resolution
re-enters on the target. -/
def singlePageStep (recur : Option String → Except LoadError Doc)
    (env : Env) (doc : Doc) (url responseUrl : String) : Except LoadError Doc :=
  match doc.headLinks.find? (fun l => isSinglePageText l.1) with
  | some link =>
    let singlePage := env.resolve doc.baseURI link.2
    if singlePage = url ∨ singlePage = responseUrl then Except.ok doc
    else recur (some singlePage)
  | none => Except.ok doc

/-- Post-render continuation of loadSpecificationFromHtml (util.js lines
308-344), parameterized by the recursive re-entry `recur`: first the
meta-refresh redirect (followed only when the resolved target differs from
both the requested URL and the response URL), then the single-page-link
step. -/
def processRenderedWindow (recur : Option String → Except LoadError Doc)
    (env : Env) (doc : Doc) (url responseUrl : String) : Except LoadError Doc :=
  match metaRefreshTarget env doc with
  | some redirectUrl =>
    if redirectUrl ≠ url ∧ redirectUrl ≠ responseUrl then recur (some redirectUrl)
    else singlePageStep recur env doc url responseUrl
  | none => singlePageStep recur env doc url responseUrl

/-- Combined recursion of loadSpecificationFromUrl (util.js lines 361-373)
and loadSpecificationFromHtml, expressed with the remaining-hop budget
`fuel = 5 - counter` as the structurally decreasing argument (the source
recursion increments `counter` on every re-entry and rejects as soon as
`counter >= 5`, so the budget is exact; see
loadSpecificationFromUrl_unfold below).  Fuel zero is the
`counter >= 5` rejection with the infinite-loop error; otherwise the URL
is fetched, the body is rendered at the response URL, and the rendered
window is post-processed with re-entry at fuel one lower. -/
def loadFromUrlAux (env : Env) : Nat → Option String → Except LoadError Doc
  | 0, _ => Except.error LoadError.infiniteLoop
  | fuel + 1, url =>
    let res := env.fetch url
    let spec : SpecRequest :=
      { html := some res.html, url := url, responseUrl := some res.responseUrl }
    processRenderedWindow (fun u => loadFromUrlAux env fuel u) env
      (renderedDoc env spec) (effectiveUrl spec) (effectiveResponseUrl spec)

/-- loadSpecificationFromUrl (util.js lines 361-373): with loop counter
`counter`, rejects immediately when `counter >= 5` (budget `5 - counter`
is zero), otherwise fetches and processes with the remaining budget. -/
def loadSpecificationFromUrl (env : Env) (url : Option String) (counter : Nat) :
    Except LoadError Doc :=
  loadFromUrlAux env (5 - counter) url

/-- loadSpecificationFromHtml (util.js lines 180-345): defaults the url and
responseUrl properties, strips a leading BOM from the markup, renders it,
and post-processes the rendered window; recursive re-entries go through
loadSpecificationFromUrl with `counter + 1` (lines 319 and 338). -/
def loadSpecificationFromHtml (env : Env) (spec : SpecRequest) (counter : Nat) :
    Except LoadError Doc :=
  processRenderedWindow (fun u => loadSpecificationFromUrl env u (counter + 1)) env
    (renderedDoc env spec) (effectiveUrl spec) (effectiveResponseUrl spec)

/-- loadSpecification (util.js lines 387-392): a request whose html
property is truthy (present and non-empty) is rendered directly, any other
request is fetched from its url property; both start at counter 0.  (A
plain string argument is first wrapped by the source into a request with
only a url property.) -/
def loadSpecification (env : Env) (spec : SpecRequest) : Except LoadError Doc :=
  if jsTruthyStr spec.html then loadSpecificationFromHtml env spec 0
  else loadSpecificationFromUrl env spec.url 0

/-! ## Resource gate (resourceLoader.download override, util.js lines 85-156)

The overridden `download` receives a parsed Node URL object; the fields the
source reads are `path` (pathname plus query string), `pathname` and
`href`, together with the referrer from the request options. -/

/-- The fields of the parsed URL object consulted by the resource gate. -/
structure ResourceUrl where
  path : String
  pathname : String
  href : String
  deriving DecidableEq, Repr

/-- The canonical, version-pinned ReSpec bootstrap URL substituted by the
gate (util.js line 98). -/
def pinnedRespecUrl : String := "https://www.w3.org/Tools/respec/respec-w3c-common"

/-- Referrer directory computation of util.js lines 92-95: a referrer not
ending in a slash is truncated to everything up to and including its last
slash (the empty string when it has no slash, matching
`substring(0, lastIndexOf + 1)` with a lastIndexOf of -1). -/
def referrerDir (referrer : String) : String :=
  if jsEndsWith referrer "/" then referrer
  else String.mk ((referrer.data.reverse.dropWhile (fun c => !(c == '/'))).reverse)

/-- The ReSpec bootstrap pattern of util.js line 96, the case-insensitive
regex `\/respec[\/\-]`: the lowercased path contains the text /respec
followed by a slash or a hyphen. -/
def respecScriptPattern (p : String) : Bool :=
  jsIncludes (jsToLower p) "/respec/" || jsIncludes (jsToLower p) "/respec-"

/-- The file-extension test of util.js line 100, the regex `\.[^\/\.]+$`:
the path ends in a dot followed by at least one character, none of which
is a slash or a dot.  Equivalently, the run of non-slash non-dot
characters at the end of the path is non-empty and is preceded by a
dot. -/
def hasFileExt (p : String) : Bool :=
  let rev := p.data.reverse
  let tail := rev.takeWhile (fun c => !(c == '/') && !(c == '.'))
  !tail.isEmpty &&
    (match rev.drop tail.length with
     | '.' :: _ => true
     | _ => false)

/-- The deny list of util.js lines 108-113: case-insensitive substring
tests on the pathname for annotate_spec, expanders, bug-assist, dfn and
section-links, plus the anchored test for a pathname starting with
/webidl/. -/
def denyListed (pathname : String) : Bool :=
  let l := jsToLower pathname
  jsIncludes l "annotate_spec" || jsIncludes l "expanders" ||
  jsIncludes l "bug-assist" || jsIncludes l "dfn" ||
  jsIncludes l "section-links" || jsStartsWith l "/webidl/"

/-- getUrlToFetch (util.js lines 91-119): in priority order, a path
matching the ReSpec bootstrap pattern is redirected to the pinned
canonical URL; a path with a file extension other than .js/.json is not
fetched; the whitelisted autolink script, or any URL under the referrer
directory whose pathname passes the deny list, is fetched at its own href;
everything else is not fetched. -/
def getUrlToFetch (u : ResourceUrl) (referrer : String) : Option String :=
  if respecScriptPattern u.path then some pinnedRespecUrl
  else if hasFileExt u.path && !(jsEndsWith u.path ".js") && !(jsEndsWith u.path ".json") then
    none
  else if u.pathname == "/webcomponents/assets/scripts/autolink.js" ||
      (jsStartsWith u.href (referrerDir referrer) && !(denyListed u.pathname)) then
    some u.href
  else none

/-- Decision of the resource gate as observed by JSDOM: either the request
is skipped and the callback receives an empty body with no network call
(util.js lines 122-124), or a possibly rewritten URL is fetched. -/
inductive Decision
  | skip
  | fetchUrl (u : String)
  deriving DecidableEq, Repr

/-- The gate decision taken by the download override: a falsy
`getUrlToFetch` result (absent, or an empty href) is skipped with an empty
body, anything else is fetched. -/
def downloadDecision (u : ResourceUrl) (referrer : String) : Decision :=
  match getUrlToFetch u referrer with
  | none => Decision.skip
  | some t => if t = "" then Decision.skip else Decision.fetchUrl t

/-- The resource-gate contract as the specification words it, built from
the same path predicates: first the templating-engine bootstrap pattern
with the pinned substitution, then the extension skip, then the
whitelisted helper or a same-directory URL passing the deny list fetched
unmodified, otherwise a skip. -/
def resourceGateSpec (u : ResourceUrl) (referrer : String) : Decision :=
  if respecScriptPattern u.path then Decision.fetchUrl pinnedRespecUrl
  else if hasFileExt u.path && !(jsEndsWith u.path ".js") && !(jsEndsWith u.path ".json") then
    Decision.skip
  else if u.pathname == "/webcomponents/assets/scripts/autolink.js" ||
      (jsStartsWith u.href (referrerDir referrer) && !(denyListed u.pathname)) then
    Decision.fetchUrl u.href
  else Decision.skip

/-! ## The ReSpec source patches (util.js lines 125-156) -/

/-- The three regex-based rewrites applied to the fetched ReSpec bootstrap,
abstracted as functions because they delegate to the external JS RegExp
engine: removal of the core/highlight dependency from the
profile-w3c-common definition (line 136), and the first-occurrence
rewrites of an at-keyframes rule and an at-supports rule to an
at-media-all rule (lines 143-144). -/
structure RegexEnv where
  dropHighlightDep : String → String
  fixFirstKeyframes : String → String
  fixFirstSupports : String → String

/-- Global literal replacement, modelling JS `replace` with a global regex
whose pattern is a literal string: non-overlapping, left to right,
scanning resumes after each replacement.  The fuel is the input length,
which bounds the number of scanning steps. -/
def replaceAllFuel (pat rep : List Char) : Nat → List Char → List Char
  | _, [] => []
  | 0, l => l
  | fuel + 1, c :: cs =>
    if pat.isPrefixOf (c :: cs) && !pat.isEmpty then
      rep ++ replaceAllFuel pat rep fuel (cs.drop (pat.length - 1))
    else c :: replaceAllFuel pat rep fuel cs

/-- Global literal replacement on strings. -/
def replaceAll (s pat rep : String) : String :=
  String.mk (replaceAllFuel pat.data rep.data s.data.length s.data)

/-- The fixed text transform applied to the ReSpec bootstrap before it is
handed to the renderer (util.js lines 136-152), in source order: drop the
core/highlight dependency, rewrite the first at-keyframes and at-supports
rules, then replace every `.innerText=` with `.textContent=` and every
`body.innerText` with `body.textContent` (both literal global
replacements, lines 150-151). -/
def respecPatch (re : RegexEnv) (data : String) : String :=
  let d1 := re.dropHighlightDep data
  let d2 := re.fixFirstKeyframes d1
  let d3 := re.fixFirstSupports d2
  let d4 := replaceAll d3 ".innerText=" ".textContent="
  replaceAll d4 "body.innerText" "body.textContent"

/-- The gating of the transform (util.js lines 128-130): a fetched body is
returned unmodified unless the fetched URL is the pinned ReSpec bootstrap
URL, in which case the fixed patch set is applied. -/
def transformBody (re : RegexEnv) (urlToFetch data : String) : String :=
  if urlToFetch ≠ pinnedRespecUrl then data else respecPatch re data

/-- Body delivered to JSDOM by the download override, for a network layer
`net` mapping a fetched URL to its body text: a skipped request yields the
empty body, a fetched one yields the (possibly patched) fetched text
(util.js lines 121-155). -/
def downloadBody (re : RegexEnv) (u : ResourceUrl) (referrer : String)
    (net : String → String) : String :=
  match getUrlToFetch u referrer with
  | none => ""
  | some t => if t = "" then "" else transformBody re t (net t)

/-! ## Generator detection (getDocumentAndGenerator, util.js lines 416-445) -/

/-- The window state inspected by getDocumentAndGenerator: the content of
the `meta[name=generator]` tag when present, the id of the document body,
whether the window declares a truthy respecConfig object, whether the
document head holds a script whose src contains respec, and whether an
element with id anolis-references exists. -/
structure SpecWindow where
  metaGeneratorContent : Option String
  bodyId : String
  hasRespecConfig : Bool
  headScriptRespecSrc : Bool
  hasAnolisReferences : Bool
  deriving DecidableEq, Repr

/-- Generator names of the resolved document. -/
inductive Generator
  | bikeshed
  | respec
  | anolis
  | unknown
  deriving DecidableEq, Repr

/-- Result of getDocumentAndGenerator: either the promise resolves right
away with the document and a generator (the source resolves without a
generator field in the unknown case), or — in the raw-ReSpec branch — the
resolution is deferred: a post-processing hook is registered with
respecConfig and a timer is armed, so that the hook resolves with the
respec generator and the timer rejects after the given bound in
milliseconds (util.js lines 427-438). -/
inductive GenResult
  | resolved (g : Generator)
  | awaitRespecPostProcess (timeoutMs : Nat)
  deriving DecidableEq, Repr

/-- The bikeshed test of util.js line 421: a `meta[name=generator]`
element exists and its content matches the case-insensitive regex
`bikeshed`. -/
def metaGenBikeshed (w : SpecWindow) : Bool :=
  match w.metaGeneratorContent with
  | some content => jsIncludes (jsToLower content) "bikeshed"
  | none => false

/-- getDocumentAndGenerator (util.js lines 416-445): first match wins
among the bikeshed meta tag, the respecDocument body id, the
respecConfig-plus-script pair (deferred resolution behind the
post-processing hook with a 30000 ms timer), the anolis-references
element, and finally the unknown generator. -/
def getDocumentAndGenerator (w : SpecWindow) : GenResult :=
  if metaGenBikeshed w then GenResult.resolved Generator.bikeshed
  else if w.bodyId = "respecDocument" then GenResult.resolved Generator.respec
  else if w.hasRespecConfig && w.headScriptRespecSrc then
    GenResult.awaitRespecPostProcess 30000
  else if w.hasAnolisReferences then GenResult.resolved Generator.anolis
  else GenResult.resolved Generator.unknown

/-- The generator-detection contract as the specification words it, over
the same window state: (a) a generator metadata tag matching the Bikeshed
tool name case-insensitively, (b) the ReSpec output marker id on the body,
(c) the respecConfig object together with a respec script reference —
with the result delivered only through the registered post-processing
hook, 30-second timer armed — (d) the Anolis marker element, (e)
unknown. -/
def detectGeneratorSpec (w : SpecWindow) : GenResult :=
  if metaGenBikeshed w then GenResult.resolved Generator.bikeshed
  else if w.bodyId = "respecDocument" then GenResult.resolved Generator.respec
  else if w.hasRespecConfig && w.headScriptRespecSrc then
    GenResult.awaitRespecPostProcess 30000
  else if w.hasAnolisReferences then GenResult.resolved Generator.anolis
  else GenResult.resolved Generator.unknown

/-- Timed outcome of the detection promise. -/
inductive DetectorOutcome
  | resolvedAt (g : Generator) (t : Nat)
  | timedOutAt (t : Nat)
  deriving DecidableEq, Repr

/-- Timed semantics of a GenResult under the JS timer model, for a given
time (in milliseconds) at which the registered post-processing hook fires,
if it ever does: an immediate resolution settles at time zero; the
deferred ReSpec resolution settles with respec when the hook fires before
the timer (which is then cleared, util.js lines 431-433), and otherwise
rejects when the timer fires at the bound (a later hook call cannot
re-settle the promise). -/
def runDetector (r : GenResult) (hookFiresAt : Option Nat) : DetectorOutcome :=
  match r with
  | GenResult.resolved g => DetectorOutcome.resolvedAt g 0
  | GenResult.awaitRespecPostProcess limit =>
    match hookFiresAt with
    | some t =>
      if t < limit then DetectorOutcome.resolvedAt Generator.respec t
      else DetectorOutcome.timedOutAt limit
    | none => DetectorOutcome.timedOutAt limit

/-! ## The renderer-session completion wait (util.js lines 196-214)

After the load event, `resolveWhenReady` runs: if `document.respecIsReady`
exists the session promise is attached to it; otherwise, if the window
declares respecConfig and the head references a respec script
(`usesRespec`), the function re-arms itself with a 100 ms timer; otherwise
the window is resolved immediately.  The wait is modelled as the state
after each 100 ms poll, with `ready k` telling whether the respecIsReady
promise exists at poll `k`. -/

/-- State of the session completion wait after a poll. -/
inductive SessionWaitState
  | attachedToReady (pollIndex : Nat)
  | resolvedImmediately (pollIndex : Nat)
  | polling
  deriving DecidableEq, Repr

/-- One execution of resolveWhenReady at poll `k` (util.js lines
200-212). -/
def resolveWhenReadyStep (usesRespec : Bool) (ready : Nat → Bool) (k : Nat) :
    SessionWaitState :=
  if ready k then SessionWaitState.attachedToReady k
  else if usesRespec then SessionWaitState.polling
  else SessionWaitState.resolvedImmediately k

/-- State of the session completion wait after poll `n` (polls are 100 ms
apart; a state other than polling is absorbing, since a settled or
attached promise is never re-examined). -/
def resolveWhenReadySteps (usesRespec : Bool) (ready : Nat → Bool) :
    Nat → SessionWaitState
  | 0 => resolveWhenReadyStep usesRespec ready 0
  | n + 1 =>
    match resolveWhenReadySteps usesRespec ready n with
    | SessionWaitState.polling => resolveWhenReadyStep usesRespec ready (n + 1)
    | s => s

/-! ## Concrete environments and fixtures

Closed instantiations of the abstract collaborators, used to run the
pipeline on concrete inputs. -/

/-- A document with no redirect and no metadata links, remembering the
markup it was parsed from in its base URI and text content. -/
def plainDoc (s : String) : Doc :=
  { baseURI := s, textContent := s, metaRefreshContent := none, headLinks := [] }

/-- A document carrying a meta-refresh redirect to `target` (content
attribute `0;target`). -/
def refreshDoc (target : String) : Doc :=
  { baseURI := "", textContent := "",
    metaRefreshContent := some (String.append "0;" target), headLinks := [] }

/-- An echoing network: every URL fetches to itself, with itself as body. -/
def echoFetch : Option String → FetchResult
  | some s => { responseUrl := s, html := s }
  | none => { responseUrl := "", html := "" }

/-- A resolver that treats every target as absolute. -/
def absResolve : String → String → String := fun _ t => t

/-- Environment whose renderer produces a plain document remembering its
markup, with an echoing network; used for BOM and branching runs. -/
def simpleEnv : Env :=
  { fetch := echoFetch, render := fun h _ => plainDoc h, resolve := absResolve }

/-- Environment realizing the forward redirect chain A to B to C to D,
with D carrying no further redirect. -/
def chainEnv3 : Env :=
  { fetch := echoFetch
    render := fun h _ =>
      match h with
      | "A" => refreshDoc "B"
      | "B" => refreshDoc "C"
      | "C" => refreshDoc "D"
      | _ => plainDoc h
    resolve := absResolve }

/-- Environment realizing a forward redirect chain of length six,
A through F each redirecting onward to G. -/
def chainEnv6 : Env :=
  { fetch := echoFetch
    render := fun h _ =>
      match h with
      | "A" => refreshDoc "B"
      | "B" => refreshDoc "C"
      | "C" => refreshDoc "D"
      | "D" => refreshDoc "E"
      | "E" => refreshDoc "F"
      | "F" => refreshDoc "G"
      | _ => plainDoc h
    resolve := absResolve }

/-- A re-entry continuation with a recognizable result, used to observe
whether a step re-entered resolution. -/
def constErr : Option String → Except LoadError Doc :=
  fun _ => Except.error LoadError.infiniteLoop

/-- A document whose meta-refresh content points at `next` through a
second field with surrounding whitespace. -/
def w4doc : Doc :=
  { baseURI := "base", textContent := "",
    metaRefreshContent := some "0; next", headLinks := [] }

/-- A document with a single-page link in its metadata block and no
meta-refresh. -/
def w5doc : Doc :=
  { baseURI := "", textContent := "", metaRefreshContent := none,
    headLinks := [("See the Single Page version", "sp.html")] }

/-- A same-directory script request passing the deny list. -/
def scriptUrl : ResourceUrl :=
  { path := "/spec/helper.js", pathname := "/spec/helper.js",
    href := "https://ex.org/spec/helper.js" }

/-- A request for a versioned ReSpec bootstrap. -/
def respecResource : ResourceUrl :=
  { path := "/tools/respec-v3.2.js", pathname := "/tools/respec-v3.2.js",
    href := "https://ex.org/tools/respec-v3.2.js" }

/-- A regex environment whose abstract rewrites are the identity, leaving
only the literal replacements observable. -/
def idRegexEnv : RegexEnv :=
  { dropHighlightDep := id, fixFirstKeyframes := id, fixFirstSupports := id }

/-- A window in the raw-ReSpec detection branch: no generator meta tag, an
unmarked body, a declared respecConfig with a respec script in the head,
no Anolis marker. -/
def respecWindow : SpecWindow :=
  { metaGeneratorContent := none, bodyId := "", hasRespecConfig := true,
    headScriptRespecSrc := true, hasAnolisReferences := false }

/-! ## Theorems -/

/-- Correspondence between the counter of the source recursion and the
remaining-hop budget of the embedding: below the bound, resolving a URL
fetches it and processes the resulting request at the same counter, whose
re-entries run at counter plus one. -/
theorem loadSpecificationFromUrl_unfold (env : Env) (url : Option String)
    (counter : Nat) (h : counter < 5) :
    loadSpecificationFromUrl env url counter =
    loadSpecificationFromHtml env
      { html := some (env.fetch url).html, url := url,
        responseUrl := some (env.fetch url).responseUrl } counter := by
  have h5 : 5 - counter = (4 - counter) + 1 := by omega
  have h4 : (4 : Nat) - counter = 5 - (counter + 1) := by omega
  unfold loadSpecificationFromUrl loadSpecificationFromHtml
  rw [h5]
  simp only [loadFromUrlAux, h4]
  rfl

/-- C1: getDocumentAndGenerator classifies the rendered window by first
match in the claimed order — bikeshed via the generator meta tag, respec
via the body marker id, deferred respec via respecConfig plus a respec
script in the head (resolved only through the registered post-processing
hook, with the 30-second timer armed), anolis via the marker element, and
unknown otherwise.  The second part checks the deferred branch: its result
is the hook-deferred one, which under the timer semantics times out when
the hook never fires and yields the respec generator exactly when the hook
fires before the bound. -/
theorem c1_generator_detection :
    (∀ w : SpecWindow, getDocumentAndGenerator w = detectGeneratorSpec w)
    ∧ (∀ w : SpecWindow, w.hasRespecConfig = true → w.headScriptRespecSrc = true →
        metaGenBikeshed w = false → w.bodyId ≠ "respecDocument" →
        getDocumentAndGenerator w = GenResult.awaitRespecPostProcess 30000
        ∧ runDetector (getDocumentAndGenerator w) none = DetectorOutcome.timedOutAt 30000
        ∧ ∀ t : Nat, t < 30000 → runDetector (getDocumentAndGenerator w) (some t) =
            DetectorOutcome.resolvedAt Generator.respec t) := by
  constructor
  · intro w
    rfl
  · intro w h1 h2 h3 h4
    have hg : getDocumentAndGenerator w = GenResult.awaitRespecPostProcess 30000 := by
      unfold getDocumentAndGenerator
      rw [h3]
      simp [h1, h2, h4]
    refine ⟨hg, ?_, ?_⟩
    · rw [hg]
      rfl
    · intro t ht
      rw [hg]
      simp only [runDetector]
      rw [if_pos ht]

/-- C1 witness: a window with a respecConfig declaration and a respec
script, no generator meta tag, no body marker and no Anolis marker is
classified into the deferred respec branch. -/
theorem c1_generator_detection_witness :
    getDocumentAndGenerator respecWindow = GenResult.awaitRespecPostProcess 30000 :=
  (c1_generator_detection.2 respecWindow rfl rfl rfl (by decide)).1

/-- C2: a resolution entered at counter five or more rejects with the
infinite-loop error for every environment (in particular the result does
not depend on the fetch collaborator, so no fetch is observable); the
concrete forward chain A-B-C-D resolves to the plain document of D, and
does so through the entry for D at hop count three; the concrete chain of
length six rejects with the loop error. -/
theorem c2_hop_bound_and_chains :
    (∀ (env : Env) (url : Option String) (counter : Nat), 5 ≤ counter →
        loadSpecificationFromUrl env url counter = Except.error LoadError.infiniteLoop)
    ∧ loadSpecificationFromUrl chainEnv3 (some "A") 0 = Except.ok (plainDoc "D")
    ∧ loadSpecificationFromUrl chainEnv3 (some "A") 0 =
        loadSpecificationFromUrl chainEnv3 (some "D") 3
    ∧ loadSpecificationFromUrl chainEnv6 (some "A") 0 =
        Except.error LoadError.infiniteLoop := by
  refine ⟨?_, rfl, rfl, rfl⟩
  intro env url counter h
  unfold loadSpecificationFromUrl
  rw [Nat.sub_eq_zero_of_le h]
  rfl

/-- C2 witness: the hop bound applied at counter seven. -/
theorem c2_hop_bound_and_chains_witness :
    loadSpecificationFromUrl simpleEnv (some "X") 7 = Except.error LoadError.infiniteLoop :=
  c2_hop_bound_and_chains.1 simpleEnv (some "X") 7 (by decide)

/-- For a window that declares ReSpec usage, the completion wait never
resolves the session other than through the respecIsReady promise. -/
theorem sessionWait_no_immediate (ready : Nat → Bool) :
    ∀ n k, resolveWhenReadySteps true ready n ≠ SessionWaitState.resolvedImmediately k := by
  intro n
  induction n with
  | zero =>
    intro k
    unfold resolveWhenReadySteps resolveWhenReadyStep
    cases hr : ready 0 <;> simp
  | succ n ih =>
    intro k
    unfold resolveWhenReadySteps
    cases hs : resolveWhenReadySteps true ready n with
    | polling =>
      unfold resolveWhenReadyStep
      cases hr : ready (n + 1) <;> simp
    | attachedToReady j => simp
    | resolvedImmediately j => exact absurd hs (ih j)

/-- The completion wait attaches to the respecIsReady promise only at a
poll where that promise exists. -/
theorem sessionWait_attached_ready (ready : Nat → Bool) :
    ∀ n k, resolveWhenReadySteps true ready n = SessionWaitState.attachedToReady k →
      ready k = true := by
  intro n
  induction n with
  | zero =>
    intro k h
    unfold resolveWhenReadySteps resolveWhenReadyStep at h
    cases hr : ready 0
    · rw [hr] at h
      simp at h
    · rw [hr] at h
      simp at h
      rw [← h]
      exact hr
  | succ n ih =>
    intro k h
    unfold resolveWhenReadySteps at h
    cases hs : resolveWhenReadySteps true ready n with
    | polling =>
      rw [hs] at h
      unfold resolveWhenReadyStep at h
      cases hr : ready (n + 1)
      · rw [hr] at h
        simp at h
      · rw [hr] at h
        simp at h
        rw [← h]
        exact hr
    | attachedToReady j =>
      rw [hs] at h
      simp at h
      rw [← h]
      exact ih j hs
    | resolvedImmediately j =>
      rw [hs] at h
      simp at h

/-- When the respecIsReady promise never materializes, the completion wait
of a ReSpec-declaring window is still polling after every number of
steps: it neither resolves nor rejects, at any time. -/
theorem sessionWait_forever (ready : Nat → Bool) (h : ∀ k, ready k = false) :
    ∀ n, resolveWhenReadySteps true ready n = SessionWaitState.polling := by
  intro n
  induction n with
  | zero => simp [resolveWhenReadySteps, resolveWhenReadyStep, h 0]
  | succ n ih => simp [resolveWhenReadySteps, ih, resolveWhenReadyStep, h (n + 1)]

/-- C3 counterexample: for a document that declares the templating engine
and references its script but whose engine never produces the ready
promise, the renderer-session completion wait of
loadSpecificationFromHtml (util.js lines 196-213) is still polling after
301 polls, that is more than 30 seconds after the load event (polls are
100 ms apart) — it has neither resolved nor rejected, and in particular
no timeout error has been raised after 30 seconds, contradicting the
claim: the session wait has no timer at all. -/
theorem c3_timeout_counterexample :
    resolveWhenReadySteps true (fun _ => false) 301 = SessionWaitState.polling :=
  sessionWait_forever (fun _ => false) (fun _ => rfl) 301

/-- C3 (amended): resolution never completes before an engine completion
signal — the session wait only ever attaches to the ready promise at a
poll where it exists and never resolves a ReSpec-declaring window by
itself — but the two waits differ on timeouts: the session wait polls
forever with no timeout when the ready promise never appears, while the
30-second timeout exists only in the detector step
(getDocumentAndGenerator): its hook wait rejects at the 30000 ms timer
when the post-processing hook never fires (or fires only after the
timer), and resolves with the respec generator when the hook fires
within the bound. -/
theorem c3_render_wait_amended :
    (∀ (ready : Nat → Bool) (n k : Nat),
        resolveWhenReadySteps true ready n = SessionWaitState.attachedToReady k →
          ready k = true)
    ∧ (∀ (ready : Nat → Bool) (n k : Nat),
        resolveWhenReadySteps true ready n ≠ SessionWaitState.resolvedImmediately k)
    ∧ (∀ ready : Nat → Bool, (∀ k, ready k = false) →
        ∀ n, resolveWhenReadySteps true ready n = SessionWaitState.polling)
    ∧ (∀ w : SpecWindow, getDocumentAndGenerator w = GenResult.awaitRespecPostProcess 30000 →
        runDetector (getDocumentAndGenerator w) none = DetectorOutcome.timedOutAt 30000
        ∧ (∀ t : Nat, t < 30000 → runDetector (getDocumentAndGenerator w) (some t) =
            DetectorOutcome.resolvedAt Generator.respec t)
        ∧ (∀ t : Nat, 30000 ≤ t → runDetector (getDocumentAndGenerator w) (some t) =
            DetectorOutcome.timedOutAt 30000)) := by
  refine ⟨sessionWait_attached_ready, sessionWait_no_immediate, sessionWait_forever, ?_⟩
  intro w hg
  rw [hg]
  refine ⟨rfl, ?_, ?_⟩
  · intro t ht
    simp only [runDetector]
    rw [if_pos ht]
  · intro t ht
    simp only [runDetector]
    rw [if_neg (by omega)]

/-- C3 witness: the amended statement applied to a never-firing signal
after five polls, and to the deferred branch of the concrete ReSpec
window with no hook call. -/
theorem c3_render_wait_amended_witness :
    resolveWhenReadySteps true (fun _ => false) 5 = SessionWaitState.polling
    ∧ runDetector (getDocumentAndGenerator respecWindow) none =
        DetectorOutcome.timedOutAt 30000 :=
  ⟨c3_render_wait_amended.2.2.1 (fun _ => false) (fun _ => rfl) 5,
   (c3_render_wait_amended.2.2.2 respecWindow rfl).1⟩

/-- C4: the meta-refresh redirect target is the second
semicolon-delimited field of the content attribute, trimmed and resolved
against the document base URI (third part); the post-render step
re-enters resolution on that target exactly when it differs from both the
requested URL and the response URL, and otherwise falls through to the
single-page-link step with the current document (first and second parts);
and the re-entry continuation used by loadSpecificationFromHtml is
resolution at hop counter plus one (fourth part). -/
theorem c4_meta_refresh_rule (env : Env) (recur : Option String → Except LoadError Doc)
    (doc : Doc) (url responseUrl target : String)
    (hmr : metaRefreshTarget env doc = some target) :
    ((target ≠ url ∧ target ≠ responseUrl) →
        processRenderedWindow recur env doc url responseUrl = recur (some target))
    ∧ (¬(target ≠ url ∧ target ≠ responseUrl) →
        processRenderedWindow recur env doc url responseUrl =
          singlePageStep recur env doc url responseUrl)
    ∧ (∀ content rawField : String, doc.metaRefreshContent = some content →
        (jsSplitChar ';' content)[1]? = some rawField → rawField ≠ "" →
        metaRefreshTarget env doc = some (env.resolve doc.baseURI (jsTrim rawField)))
    ∧ (∀ (spec : SpecRequest) (counter : Nat),
        loadSpecificationFromHtml env spec counter =
        processRenderedWindow (fun u => loadSpecificationFromUrl env u (counter + 1)) env
          (renderedDoc env spec) (effectiveUrl spec) (effectiveResponseUrl spec)) := by
  refine ⟨?_, ?_, ?_, fun _ _ => rfl⟩
  · intro h
    unfold processRenderedWindow
    rw [hmr]
    simp only
    rw [if_pos h]
  · intro h
    unfold processRenderedWindow
    rw [hmr]
    simp only
    rw [if_neg h]
  · intro content rawField hc hf hne
    unfold metaRefreshTarget
    rw [hc]
    simp only
    rw [hf]
    simp only
    rw [if_neg hne]

/-- C4 witness: a document whose meta-refresh content is `0; next`
resolves its target to `next` and, the target differing from both URLs,
the post-render step re-enters on it. -/
theorem c4_meta_refresh_rule_witness :
    processRenderedWindow constErr simpleEnv w4doc "u" "r" = constErr (some "next") :=
  (c4_meta_refresh_rule simpleEnv constErr w4doc "u" "r" "next" (by decide)).1
    ⟨by decide, by decide⟩

/-- C5: with no applicable meta-refresh (no target, or a target equal to
one of the two URLs), the first metadata-block link whose visible text
matches a single-page phrase decides the step: if its href resolved
against the base URI equals the requested URL or the response URL the
current document is returned unchanged — for every environment and every
re-entry continuation, so no further fetch occurs — and otherwise the
step re-enters resolution on the resolved target. -/
theorem c5_single_page_rule (env : Env) (recur : Option String → Except LoadError Doc)
    (doc : Doc) (url responseUrl text href : String)
    (hmr : metaRefreshTarget env doc = none ∨
        ∃ t, metaRefreshTarget env doc = some t ∧ (t = url ∨ t = responseUrl))
    (hlink : doc.headLinks.find? (fun l => isSinglePageText l.1) = some (text, href)) :
    ((env.resolve doc.baseURI href = url ∨ env.resolve doc.baseURI href = responseUrl) →
        processRenderedWindow recur env doc url responseUrl = Except.ok doc)
    ∧ ((env.resolve doc.baseURI href ≠ url ∧ env.resolve doc.baseURI href ≠ responseUrl) →
        processRenderedWindow recur env doc url responseUrl =
          recur (some (env.resolve doc.baseURI href))) := by
  have hstep : processRenderedWindow recur env doc url responseUrl =
      singlePageStep recur env doc url responseUrl := by
    unfold processRenderedWindow
    rcases hmr with h | ⟨t, ht, hcase⟩
    · rw [h]
    · rw [ht]
      simp only
      rw [if_neg (by tauto)]
  constructor
  · intro h
    rw [hstep]
    unfold singlePageStep
    rw [hlink]
    simp only
    rw [if_pos h]
  · intro h
    rw [hstep]
    unfold singlePageStep
    rw [hlink]
    simp only
    rw [if_neg (not_or.mpr ⟨h.1, h.2⟩)]

/-- C5 witness: a document whose single-page link resolves to the
requested URL is returned unchanged by the post-render step. -/
theorem c5_single_page_rule_witness :
    processRenderedWindow constErr simpleEnv w5doc "sp.html" "r" = Except.ok w5doc :=
  (c5_single_page_rule simpleEnv constErr w5doc "sp.html" "r"
      "See the Single Page version" "sp.html" (Or.inl (by decide)) (by decide)).1
    (Or.inl (by decide))

/-- C6: for every secondary-resource request whose href is a non-empty
URL (as every parsed request URL is), the gate decision of the download
override equals the specification contract: the ReSpec bootstrap pattern
fetches the pinned canonical URL, any other path with an extension other
than .js/.json is skipped with an empty body and no network call, the
whitelisted autolink script or a same-directory URL passing the deny list
is fetched with its URL unmodified, and everything else is skipped. -/
theorem c6_resource_gate (u : ResourceUrl) (referrer : String) (h : u.href ≠ "") :
    downloadDecision u referrer = resourceGateSpec u referrer := by
  unfold downloadDecision getUrlToFetch resourceGateSpec
  cases h1 : respecScriptPattern u.path
  · cases h2 : (hasFileExt u.path && !(jsEndsWith u.path ".js") && !(jsEndsWith u.path ".json"))
    · cases h3 : (u.pathname == "/webcomponents/assets/scripts/autolink.js" ||
          (jsStartsWith u.href (referrerDir referrer) && !(denyListed u.pathname)))
      · simp [h1, h2, h3]
      · simp [h1, h2, h3, h]
    · simp [h1, h2]
  · simp [h1]
    decide

/-- C6 witness: a same-directory script request with a .js extension and
a deny-list-passing pathname is fetched with its URL unmodified. -/
theorem c6_resource_gate_witness :
    downloadDecision scriptUrl "https://ex.org/spec/index.html" =
      Decision.fetchUrl "https://ex.org/spec/helper.js" := by
  have h := c6_resource_gate scriptUrl "https://ex.org/spec/index.html" (by decide)
  rw [h]
  decide

/-- C7: the fixed ReSpec patch set is applied to the fetched body exactly
when the fetched URL is the pinned bootstrap URL: whenever the gate
resolves a request to the pinned URL the delivered body is the patched
fetched text, any other fetched resource is delivered unmodified, a
skipped request delivers the empty body, and the transform applied to the
pinned resource is always the same composition — the core/highlight
dependency drop, the two at-rule rewrites, and the two global literal
replacements of the innerText accesses by textContent equivalents. -/
theorem c7_respec_patch_gating (re : RegexEnv) (net : String → String)
    (u : ResourceUrl) (referrer : String) :
    (getUrlToFetch u referrer = some pinnedRespecUrl →
        downloadBody re u referrer net = respecPatch re (net pinnedRespecUrl))
    ∧ (∀ t : String, getUrlToFetch u referrer = some t → t ≠ pinnedRespecUrl → t ≠ "" →
        downloadBody re u referrer net = net t)
    ∧ (getUrlToFetch u referrer = none → downloadBody re u referrer net = "")
    ∧ (∀ data : String, transformBody re pinnedRespecUrl data = respecPatch re data) := by
  refine ⟨?_, ?_, ?_, ?_⟩
  · intro hg
    unfold downloadBody
    rw [hg]
    simp only
    rw [if_neg (by decide : ¬(pinnedRespecUrl = ""))]
    unfold transformBody
    rw [if_neg (fun hq => hq rfl)]
  · intro t hg hne hne2
    unfold downloadBody
    rw [hg]
    simp only
    rw [if_neg hne2]
    unfold transformBody
    rw [if_pos hne]
  · intro hg
    unfold downloadBody
    rw [hg]
  · intro data
    unfold transformBody
    rw [if_neg (fun hq => hq rfl)]

/-- C7 witness: a versioned ReSpec bootstrap request is resolved to the
pinned URL and its body is patched — with identity regex rewrites, the
two literal innerText replacements are observable. -/
theorem c7_respec_patch_gating_witness :
    downloadBody idRegexEnv respecResource ""
        (fun _ => "x.innerText=1;body.innerText") =
      "x.textContent=1;body.textContent" := by
  have h := (c7_respec_patch_gating idRegexEnv
      (fun _ => "x.innerText=1;body.innerText") respecResource "").1 (by decide)
  rw [h]
  decide

/-- C8 counterexample: resolving markup that begins with two byte-order
marks yields a document whose text differs from the one obtained by
resolving the same markup with the leading byte-order mark removed
beforehand — the source strips exactly one leading U+FEFF, so the
remaining mark survives in one run and is stripped in the other. -/
theorem c8_bom_counterexample :
    loadSpecificationFromHtml simpleEnv
        { html := some "\uFEFF\uFEFFx", url := none, responseUrl := none } 0 =
      Except.ok (plainDoc "\uFEFFx")
    ∧ loadSpecificationFromHtml simpleEnv
        { html := some "\uFEFFx", url := none, responseUrl := none } 0 =
      Except.ok (plainDoc "x")
    ∧ (plainDoc "\uFEFFx").textContent ≠ (plainDoc "x").textContent :=
  ⟨rfl, rfl, by decide⟩

/-- C8 (amended): for markup whose first character is the byte-order mark
and whose remainder does not itself begin with a byte-order mark,
resolution yields exactly the result of resolving the pre-stripped
markup, for every environment — the source strips one leading U+FEFF, so
the two runs render identical markup. -/
theorem c8_bom_amended (env : Env) (html0 rest : String) (u r : Option String)
    (counter : Nat) (hsplit : html0.data = '\uFEFF' :: rest.data)
    (hrest : rest.data.head? ≠ some '\uFEFF') :
    loadSpecificationFromHtml env { html := some html0, url := u, responseUrl := r } counter =
    loadSpecificationFromHtml env { html := some rest, url := u, responseUrl := r } counter := by
  have hne : html0 ≠ "" := by
    intro he
    rw [he] at hsplit
    simp at hsplit
  have hstrip1 : stripBOM html0 = rest := by
    unfold stripBOM
    rw [hsplit]
    simp
  have hstrip2 : stripBOM rest = rest := by
    unfold stripBOM
    cases hd : rest.data with
    | nil => rfl
    | cons c2 t =>
      have hc2 : c2 ≠ '\uFEFF' := by
        intro he
        rw [hd, he] at hrest
        exact hrest rfl
      simp [hc2]
  have hjs1 : jsOr (some html0) "" = html0 := by
    simp only [jsOr]
    rw [if_neg hne]
  have hjs2 : jsOr (some rest) "" = rest := by
    simp only [jsOr]
    by_cases h0 : rest = ""
    · rw [if_pos h0, h0]
    · rw [if_neg h0]
  unfold loadSpecificationFromHtml renderedDoc
  simp only [hjs1, hjs2, hstrip1, hstrip2]
  rfl

/-- C8 witness: the amended statement on concrete markup. -/
theorem c8_bom_amended_witness :
    loadSpecificationFromHtml simpleEnv
        { html := some "\uFEFFhi", url := none, responseUrl := none } 0 =
    loadSpecificationFromHtml simpleEnv
        { html := some "hi", url := none, responseUrl := none } 0 :=
  c8_bom_amended simpleEnv "\uFEFFhi" "hi" none none 0 (by decide) (by decide)

/-- C9: a request object whose html property is absent or empty takes the
URL branch of loadSpecification, fetching the url property at counter
zero; the raw-markup branch is taken exactly when the html property is a
non-empty string. -/
theorem c9_branch_selection (env : Env) (spec : SpecRequest) :
    ((spec.html = none ∨ spec.html = some "") →
        loadSpecification env spec = loadSpecificationFromUrl env spec.url 0)
    ∧ (∀ hs : String, spec.html = some hs → hs ≠ "" →
        loadSpecification env spec = loadSpecificationFromHtml env spec 0) := by
  constructor
  · intro h
    unfold loadSpecification
    rcases h with h | h <;> rw [h] <;> rfl
  · intro hs hh hne
    unfold loadSpecification
    rw [hh]
    simp [jsTruthyStr, hne]

/-- C9 witness: a request with an absent html property and a url property
takes the URL branch. -/
theorem c9_branch_selection_witness :
    loadSpecification simpleEnv { html := none, url := some "U", responseUrl := none } =
      loadSpecificationFromUrl simpleEnv (some "U") 0 :=
  (c9_branch_selection simpleEnv
    { html := none, url := some "U", responseUrl := none }).1 (Or.inl rfl)

/-- C10: in the raw-markup path, an absent url property defaults to
about:blank and an absent responseUrl property defaults to the url value
— replacing the absent property by its default changes nothing — and the
redirect comparison runs against the defaulted values: with both
properties absent, a meta-refresh target resolving to about:blank is not
followed, the step falling through to the single-page check of the
current document. -/
theorem c10_request_defaults (env : Env) (spec : SpecRequest) (counter : Nat) :
    (spec.url = none →
        loadSpecificationFromHtml env spec counter =
        loadSpecificationFromHtml env { spec with url := some "about:blank" } counter)
    ∧ (∀ u : String, spec.url = some u → u ≠ "" → spec.responseUrl = none →
        loadSpecificationFromHtml env spec counter =
        loadSpecificationFromHtml env { spec with responseUrl := some u } counter)
    ∧ (spec.url = none → spec.responseUrl = none →
        metaRefreshTarget env (renderedDoc env spec) = some "about:blank" →
        loadSpecificationFromHtml env spec counter =
        singlePageStep (fun u => loadSpecificationFromUrl env u (counter + 1)) env
          (renderedDoc env spec) "about:blank" "about:blank") := by
  refine ⟨?_, ?_, ?_⟩
  · intro h
    unfold loadSpecificationFromHtml renderedDoc effectiveResponseUrl effectiveUrl
    rw [h]
    simp [jsOr]
  · intro u hu hune hr
    unfold loadSpecificationFromHtml renderedDoc effectiveResponseUrl effectiveUrl
    rw [hu, hr]
    simp [jsOr, hune]
  · intro hu hr hmr
    have heu : effectiveUrl spec = "about:blank" := by
      unfold effectiveUrl
      rw [hu]
      rfl
    have her : effectiveResponseUrl spec = "about:blank" := by
      unfold effectiveResponseUrl
      rw [hr, heu]
      rfl
    unfold loadSpecificationFromHtml
    rw [heu, her]
    unfold processRenderedWindow
    rw [hmr]
    simp only
    rw [if_neg (by simp)]

/-- C10 witness: replacing an absent url property by about:blank leaves
the result unchanged on a concrete request. -/
theorem c10_request_defaults_witness :
    loadSpecificationFromHtml simpleEnv
        { html := some "x", url := none, responseUrl := some "R" } 0 =
    loadSpecificationFromHtml simpleEnv
        { html := some "x", url := some "about:blank", responseUrl := some "R" } 0 :=
  (c10_request_defaults simpleEnv
    { html := some "x", url := none, responseUrl := some "R" } 0).1 rfl
